import Mathlib

/-!
Formal model of the Breakout game in this repository
(src/src/main.rs, src/src/screens/game.rs, src/src/screens/menu.rs,
src/src/screens/win.rs), with proofs about its collision classification,
velocity reflection, scoring and lives bookkeeping, paddle movement,
countdown, and screen state machine.

Scalars are modelled as exact rationals.  The only constant of the game
that is irrational in exact arithmetic is the starting ball velocity,
INITIAL_BALL_DIRECTION.normalize() mul BALL_SPEED, whose components are
200 sqrt 2 and minus 200 sqrt 2; the development is therefore parametric
in that vector (structure BallConfig below), and IsInitialBallVelocity
records the facts that hold of the source constant (positive x component,
y component its negation).

Engine semantics that matter to the model and are reproduced here:
  - Bevy Commands (entity despawns and set_state calls) are deferred:
    they apply at the next command flush, after the issuing system has
    finished.  In particular, inside check_for_collisions the collider
    query still contains every collider that was alive when the tick
    began, including bricks despawned earlier in the same loop.
  - A Single system parameter that matches no entity skips the system.
  - Timer with TimerMode Once clamps elapsed at its duration and reports
    just_finished only on the tick that crossed the duration.
-/

namespace Breakout

set_option maxRecDepth 400000

/-- A two dimensional vector with exact rational components, standing for
the f32 Vec2 of the source. -/
structure Vec2 where
  x : ℚ
  y : ℚ
deriving DecidableEq, Repr

/-! Constants from src/src/screens/game.rs. -/

def PADDLE_SIZE : Vec2 := ⟨120, 20⟩

def GAP_BETWEEN_PADDLE_AND_FLOOR : ℚ := 60

def PADDLE_SPEED : ℚ := 500

def PADDLE_PADDING : ℚ := 10

/-- BALL_STARTING_POSITION with the z component dropped: collision code
only ever uses translation.truncate(). -/
def BALL_STARTING_POSITION : Vec2 := ⟨0, -50⟩

def BALL_DIAMETER : ℚ := 30

def BALL_SPEED : ℚ := 400

def INITIAL_BALL_DIRECTION : Vec2 := ⟨1/2, -1/2⟩

def WALL_THICKNESS : ℚ := 10

def LEFT_WALL : ℚ := -450

def RIGHT_WALL : ℚ := 450

def BOTTOM_WALL : ℚ := -300

def TOP_WALL : ℚ := 300

def BRICK_SIZE : Vec2 := ⟨100, 30⟩

def GAP_BETWEEN_PADDLE_AND_BRICKS : ℚ := 270

def GAP_BETWEEN_BRICKS : ℚ := 5

def GAP_BETWEEN_BRICKS_AND_CEILING : ℚ := 20

def GAP_BETWEEN_BRICKS_AND_SIDES : ℚ := 20

def INITIAL_LIVES : ℕ := 3

def STARTING_GAME_DURATION_SECS : ℚ := 3

def GO_DISPLAY_DURATION_SECS : ℚ := 1

/-- The ball starting velocity, INITIAL_BALL_DIRECTION.normalize() times
BALL_SPEED in the source.  Its exact value is irrational, so the model is
parametric in it. -/
structure BallConfig where
  initialBallVelocity : Vec2
deriving DecidableEq

/-- Facts that hold of the source constant
INITIAL_BALL_DIRECTION.normalize() times BALL_SPEED, namely 200 sqrt 2 in
x and its negation in y: the x component is positive and the y component
is its negation. -/
def IsInitialBallVelocity (v : Vec2) : Prop := 0 < v.x ∧ v.y = -v.x

/-! Geometry: Bevy bounding volumes used by game.rs. -/

/-- Bevy BoundingCircle: a center and a radius. -/
structure BoundingCircle where
  center : Vec2
  radius : ℚ
deriving DecidableEq

/-- Bevy Aabb2d: componentwise minimum and maximum corners. -/
structure Aabb2d where
  minC : Vec2
  maxC : Vec2
deriving DecidableEq

/-- Bevy Aabb2d::new(center, half_size): min is center minus half_size,
max is center plus half_size. -/
def Aabb2d.new (center halfSize : Vec2) : Aabb2d :=
  ⟨⟨center.x - halfSize.x, center.y - halfSize.y⟩,
   ⟨center.x + halfSize.x, center.y + halfSize.y⟩⟩

/-- glam componentwise clamp used by Aabb2d::closest_point:
self.max(min).min(max). -/
def glamClamp (v lo hi : ℚ) : ℚ := min (max v lo) hi

/-- Bevy Aabb2d::closest_point: clamp the point into the box. -/
def Aabb2d.closestPoint (a : Aabb2d) (p : Vec2) : Vec2 :=
  ⟨glamClamp p.x a.minC.x a.maxC.x, glamClamp p.y a.minC.y a.maxC.y⟩

/-- Squared euclidean distance of two points. -/
def Vec2.distanceSquared (p q : Vec2) : ℚ := (p.x - q.x) ^ 2 + (p.y - q.y) ^ 2

/-- Bevy IntersectsVolume of BoundingCircle against Aabb2d: squared
distance from the center to the closest point of the box is at most the
squared radius. -/
def BoundingCircle.intersectsAabb (c : BoundingCircle) (a : Aabb2d) : Bool :=
  decide (c.center.distanceSquared (a.closestPoint c.center) ≤ c.radius ^ 2)

/-- The Collision enum of game.rs: which side of the box the ball hit. -/
inductive Collision
  | Left
  | Right
  | Top
  | Bottom
deriving DecidableEq, Repr

/-- The function ball_collision of game.rs, translated clause by clause:
return none when the bounding circle does not intersect the box, otherwise
classify the side from the offset of the ball center from the closest
point of the box. -/
def ball_collision (ball : BoundingCircle) (bounding_box : Aabb2d) : Option Collision :=
  if ¬ ball.intersectsAabb bounding_box then none
  else
    let closest := bounding_box.closestPoint ball.center
    let offset : Vec2 := ⟨ball.center.x - closest.x, ball.center.y - closest.y⟩
    let side :=
      if |offset.x| > |offset.y| then
        if offset.x < 0 then Collision.Left else Collision.Right
      else if offset.y > 0 then Collision.Top
      else Collision.Bottom
    some side

/-! Claim side characterizations of the collision test, used to state the
geometric specification the code is compared against. -/

/-- Membership of a point in an axis aligned box, stated directly from the
corner coordinates. -/
def Aabb2d.containsPoint (a : Aabb2d) (p : Vec2) : Prop :=
  a.minC.x ≤ p.x ∧ p.x ≤ a.maxC.x ∧ a.minC.y ≤ p.y ∧ p.y ≤ a.maxC.y

/-- A box is well formed when its minimum corner is componentwise at most
its maximum corner; every Aabb2d built by the game from a nonnegative half
size is well formed. -/
def Aabb2d.wellFormed (a : Aabb2d) : Prop :=
  a.minC.x ≤ a.maxC.x ∧ a.minC.y ≤ a.maxC.y

/-- Geometric intersection of a circle and a box: some point of the box
lies within the radius of the center. -/
def circleMeetsBox (ball : BoundingCircle) (a : Aabb2d) : Prop :=
  ∃ p : Vec2, a.containsPoint p ∧ ball.center.distanceSquared p ≤ ball.radius ^ 2

/-- The side classification stated from the claim: strict dominance of the
horizontal offset gives Left or Right by the sign of offset.x, otherwise
the sign of offset.y decides between Top and Bottom. -/
def sideOfOffset (offset : Vec2) : Collision :=
  if |offset.x| > |offset.y| then
    if offset.x < 0 then Collision.Left else Collision.Right
  else if offset.y > 0 then Collision.Top
  else Collision.Bottom

/-- The offset vector from the closest point of the box to the ball
center, as computed in ball_collision. -/
def collisionOffset (ball : BoundingCircle) (a : Aabb2d) : Vec2 :=
  ⟨ball.center.x - (a.closestPoint ball.center).x,
   ball.center.y - (a.closestPoint ball.center).y⟩

/-! Velocity reflection, from the tail of check_for_collisions. -/

/-- The reflection logic at the bottom of the collision loop of
check_for_collisions: reflect the x component only when the side is Left
and the velocity moves right, or Right and the velocity moves left, and
symmetrically for y. -/
def reflectVelocity (collision : Collision) (v : Vec2) : Vec2 :=
  let reflect_x : Bool :=
    match collision with
    | Collision.Left => decide (v.x > 0)
    | Collision.Right => decide (v.x < 0)
    | _ => false
  let reflect_y : Bool :=
    match collision with
    | Collision.Top => decide (v.y < 0)
    | Collision.Bottom => decide (v.y > 0)
    | _ => false
  ⟨if reflect_x then -v.x else v.x, if reflect_y then -v.y else v.y⟩

/-! Paddle movement, from move_paddle. -/

/-- Rust f32::clamp(min, max): requires min at most max, and moves the
value to the nearest bound when outside. -/
def rustClamp (v lo hi : ℚ) : ℚ := if v < lo then lo else if v > hi then hi else v

/-- The direction accumulated from the pressed arrow keys in move_paddle:
minus one for left, plus one for right, summed. -/
def paddleDirection (leftPressed rightPressed : Bool) : ℚ :=
  (if leftPressed then -1 else 0) + (if rightPressed then 1 else 0)

/-- Left clamp bound of move_paddle. -/
def paddleLeftBound : ℚ :=
  LEFT_WALL + WALL_THICKNESS / 2 + PADDLE_SIZE.x / 2 + PADDLE_PADDING

/-- Right clamp bound of move_paddle. -/
def paddleRightBound : ℚ :=
  RIGHT_WALL - WALL_THICKNESS / 2 - PADDLE_SIZE.x / 2 - PADDLE_PADDING

/-- The system move_paddle of game.rs: integrate the input direction at
PADDLE_SPEED over the frame delta and clamp the resulting x into the
arena bounds. -/
def move_paddle (paddleX : ℚ) (leftPressed rightPressed : Bool) (delta : ℚ) : ℚ :=
  let direction := paddleDirection leftPressed rightPressed
  let new_paddle_position := paddleX + direction * PADDLE_SPEED * delta
  rustClamp new_paddle_position paddleLeftBound paddleRightBound

/-- The system apply_velocity of game.rs, for the one entity carrying a
Velocity component (the ball): translation plus velocity times delta. -/
def apply_velocity (delta : ℚ) (pos vel : Vec2) : Vec2 :=
  ⟨pos.x + vel.x * delta, pos.y + vel.y * delta⟩

/-! The states and events of the game. -/

/-- Modelled from the spec: the top level screen state AppState with
variants Menu, Game, GameOver and Win.  Its defining module is not among
the provided sources (src/src/main.rs holds an older app state enum
without Win), while the screen modules reference AppState::Menu,
AppState::Game, AppState::GameOver and AppState::Win; the spec gives the
four variants with Menu the initial one. -/
inductive AppState
  | Menu
  | Game
  | GameOver
  | Win
deriving DecidableEq, Repr

/-- The private GameState enum of game.rs: the game local sub state, with
Disabled its default. -/
inductive GameState
  | Disabled
  | Starting
  | Playing
deriving DecidableEq, Repr

/-- The GameEvent enum of game.rs; the payload structs CollisionEvent,
LostLifeEvent and GameOverEvent are empty and dropped here. -/
inductive GameEvent
  | Collision
  | LostLife
  | GameOver
deriving DecidableEq, Repr

/-- One row of the collider query of check_for_collisions: the transform
data that feeds the Aabb, plus the presence of the Brick and Deadly
marker components. -/
structure Collider where
  translation : Vec2
  scale : Vec2
  isBrick : Bool
  isDeadly : Bool
deriving DecidableEq, Repr

/-- The mutable data touched by check_for_collisions during one tick: the
ball transform and velocity, the Score and Lives resources, the pending
application state (written through deferred set_state calls), and the
events written to the GameEvent queue this tick. -/
structure TickState where
  ballPos : Vec2
  ballVel : Vec2
  score : ℕ
  lives : ℕ
  app : AppState
  events : List GameEvent
deriving DecidableEq, Repr

/-- The bounding circle built for the ball in check_for_collisions:
center at the ball translation, radius BALL_DIAMETER over two. -/
def ballBoundingCircle (pos : Vec2) : BoundingCircle := ⟨pos, BALL_DIAMETER / 2⟩

/-- The Aabb built for a collider in check_for_collisions: centered at the
translation with half size equal to half the transform scale. -/
def colliderAabb (c : Collider) : Aabb2d :=
  Aabb2d.new c.translation ⟨c.scale.x / 2, c.scale.y / 2⟩

/-- Outcome of processing one collider inside the loop of
check_for_collisions: the updated tick data, whether a despawn command
was queued for this collider, and whether the loop returned early. -/
structure ColliderOutcome where
  state : TickState
  despawnCurrent : Bool
  abort : Bool
deriving DecidableEq, Repr

/-- The part of the collision loop body after the brick branch: the
Deadly handling followed by the velocity reflection.  On a deadly hit at
zero lives the system writes a GameOver event, queues a transition to
AppState::GameOver and returns early; otherwise it resets the ball to the
starting position and velocity, decrements Lives and writes a LostLife
event, and then falls through to the reflection like every other
collision. -/
def deadlyStep (cfg : BallConfig) (collision : Collision) (s : TickState)
    (c : Collider) (despawnCurrent : Bool) : ColliderOutcome :=
  if c.isDeadly then
    if s.lives = 0 then
      { state := { s with events := s.events ++ [GameEvent.GameOver],
                          app := AppState.GameOver },
        despawnCurrent := despawnCurrent, abort := true }
    else
      let s1 := { s with ballPos := BALL_STARTING_POSITION,
                         ballVel := cfg.initialBallVelocity,
                         lives := s.lives - 1,
                         events := s.events ++ [GameEvent.LostLife] }
      { state := { s1 with ballVel := reflectVelocity collision s1.ballVel },
        despawnCurrent := despawnCurrent, abort := false }
  else
    { state := { s with ballVel := reflectVelocity collision s.ballVel },
      despawnCurrent := despawnCurrent, abort := false }

/-- One iteration of the collider loop of check_for_collisions.

totalBricks is the number of Brick entities the collider query holds for
the whole tick.  The source computes remaining_bricks by filtering and
counting collider_query inside the loop, but entity despawns issued
through Commands are deferred to the next command flush, so the query
still contains every brick that was alive when the tick began, the brick
being processed included: the count the source observes is exactly this
tick wide constant. -/
def processCollider (cfg : BallConfig) (totalBricks : ℕ) (s : TickState)
    (c : Collider) : ColliderOutcome :=
  match ball_collision (ballBoundingCircle s.ballPos) (colliderAabb c) with
  | none => { state := s, despawnCurrent := false, abort := false }
  | some collision =>
    let s0 := { s with events := s.events ++ [GameEvent.Collision] }
    if c.isBrick then
      let s1 := { s0 with score := s0.score + 1 }
      let remaining_bricks := totalBricks
      if remaining_bricks = 0 then
        { state := { s1 with app := AppState.Win }, despawnCurrent := true,
          abort := true }
      else deadlyStep cfg collision s1 c true
    else deadlyStep cfg collision s0 c false

/-- The collider loop of check_for_collisions: process each collider in
query order, stopping at an early return; returns the final tick data
together with the colliders that survive the end of tick command flush
(everything not despawned, including the not yet visited tail when the
loop returned early, since a return does not despawn anything further). -/
def checkColliders (cfg : BallConfig) (totalBricks : ℕ) :
    TickState → List Collider → TickState × List Collider
  | s, [] => (s, [])
  | s, c :: rest =>
    let o := processCollider cfg totalBricks s c
    if o.abort then
      (o.state, (if o.despawnCurrent then [] else [c]) ++ rest)
    else
      let r := checkColliders cfg totalBricks o.state rest
      (r.1, (if o.despawnCurrent then [] else [c]) ++ r.2)

/-- The system check_for_collisions of game.rs over the snapshot of
colliders alive at the start of the tick. -/
def check_for_collisions (cfg : BallConfig) (s : TickState)
    (colliders : List Collider) : TickState × List Collider :=
  checkColliders cfg (colliders.countP (fun c => c.isBrick)) s colliders

/-! The countdown timer and update_countdown. -/

/-- A Bevy Timer in TimerMode Once: elapsed time, total duration, whether
it has finished, and whether the most recent tick call crossed the
duration (just_finished). -/
structure Timer where
  elapsed : ℚ
  duration : ℚ
  finished : Bool
  justFinishedFlag : Bool
deriving DecidableEq, Repr

/-- Timer::tick for TimerMode Once: a finished timer only clears
just_finished; otherwise elapsed advances, clamped at the duration, and
just_finished is set exactly when the duration is reached. -/
def Timer.tickOnce (t : Timer) (delta : ℚ) : Timer :=
  if t.finished then { t with justFinishedFlag := false }
  else
    let elapsed := t.elapsed + delta
    if t.duration ≤ elapsed then
      { elapsed := t.duration, duration := t.duration, finished := true,
        justFinishedFlag := true }
    else
      { elapsed := elapsed, duration := t.duration, finished := false,
        justFinishedFlag := false }

/-- Timer::remaining_secs. -/
def Timer.remainingSecs (t : Timer) : ℚ := t.duration - t.elapsed

/-- Timer::elapsed_secs. -/
def Timer.elapsedSecs (t : Timer) : ℚ := t.elapsed

/-- What the countdown overlay text shows: an integer count or the GO
word. -/
inductive CountdownText
  | number (n : ℤ)
  | go
deriving DecidableEq, Repr

/-- Observable outcome of one run of update_countdown: the timer
afterwards, whether the overlay entities were despawned, whether a
transition of the sub state to Playing was queued, and the text written
to the overlay, if any. -/
structure CountdownResult where
  timer : Timer
  despawnOverlay : Bool
  setPlaying : Bool
  text : Option CountdownText
deriving DecidableEq, Repr

/-- The system update_countdown of game.rs, for a present CountdownTimer
resource and a live overlay: despawn the overlay and stop when the timer
just finished on the previous run; otherwise advance the timer, queue the
Playing transition once elapsed reaches STARTING_GAME_DURATION_SECS, and
write the ceiling of remaining seconds minus the GO display duration,
showing GO when that value is zero.  The f32 comparison secs equals zero
also accepts negative zero, which the integer ceiling models exactly. -/
def update_countdown (delta : ℚ) (t : Timer) : CountdownResult :=
  if t.justFinishedFlag then
    { timer := t, despawnOverlay := true, setPlaying := false, text := none }
  else
    let t1 := t.tickOnce delta
    let setPlaying := decide (STARTING_GAME_DURATION_SECS ≤ t1.elapsedSecs)
    let secs : ℤ := ⌈t1.remainingSecs - GO_DISPLAY_DURATION_SECS⌉
    { timer := t1, despawnOverlay := false, setPlaying := setPlaying,
      text := some (if secs = 0 then CountdownText.go else CountdownText.number secs) }

/-! The arena built by game_setup: paddle, walls and brick grid. -/

/-- The WallLocation enum of game.rs. -/
inductive WallLocation
  | wleft
  | wright
  | wbottom
  | wtop
deriving DecidableEq, Repr

/-- WallLocation::position. -/
def WallLocation.position : WallLocation → Vec2
  | WallLocation.wleft => ⟨LEFT_WALL, 0⟩
  | WallLocation.wright => ⟨RIGHT_WALL, 0⟩
  | WallLocation.wbottom => ⟨0, BOTTOM_WALL⟩
  | WallLocation.wtop => ⟨0, TOP_WALL⟩

/-- WallLocation::size; arena_height and arena_width are asserted
positive at startup, which holds of the constants. -/
def WallLocation.size : WallLocation → Vec2
  | WallLocation.wleft => ⟨WALL_THICKNESS, TOP_WALL - BOTTOM_WALL + WALL_THICKNESS⟩
  | WallLocation.wright => ⟨WALL_THICKNESS, TOP_WALL - BOTTOM_WALL + WALL_THICKNESS⟩
  | WallLocation.wbottom => ⟨RIGHT_WALL - LEFT_WALL + WALL_THICKNESS, WALL_THICKNESS⟩
  | WallLocation.wtop => ⟨RIGHT_WALL - LEFT_WALL + WALL_THICKNESS, WALL_THICKNESS⟩

/-- A wall entity as it appears to the collider query: only the bottom
wall carries the Deadly marker. -/
def wallCollider (loc : WallLocation) (deadly : Bool) : Collider :=
  ⟨loc.position, loc.size, false, deadly⟩

/-- The vertical position of the paddle, BOTTOM_WALL plus
GAP_BETWEEN_PADDLE_AND_FLOOR. -/
def paddle_y : ℚ := BOTTOM_WALL + GAP_BETWEEN_PADDLE_AND_FLOOR

/-- The paddle as it appears to the collider query, at horizontal
position x: scale PADDLE_SIZE, no Brick and no Deadly marker. -/
def paddleCollider (x : ℚ) : Collider := ⟨⟨x, paddle_y⟩, PADDLE_SIZE, false, false⟩

/-- Horizontal space available for bricks in game_setup. -/
def total_width_of_bricks : ℚ :=
  (RIGHT_WALL - LEFT_WALL) - 2 * GAP_BETWEEN_BRICKS_AND_SIDES

/-- Bottom edge of the brick grid in game_setup. -/
def bottom_edge_of_bricks : ℚ := paddle_y + GAP_BETWEEN_PADDLE_AND_BRICKS

/-- Vertical space available for bricks in game_setup. -/
def total_height_of_bricks : ℚ :=
  TOP_WALL - bottom_edge_of_bricks - GAP_BETWEEN_BRICKS_AND_CEILING

/-- Number of brick columns: floor of available width over brick width
plus gap. -/
def n_columns : ℕ := (⌊total_width_of_bricks / (BRICK_SIZE.x + GAP_BETWEEN_BRICKS)⌋).toNat

/-- Number of brick rows: floor of available height over brick height
plus gap. -/
def n_rows : ℕ := (⌊total_height_of_bricks / (BRICK_SIZE.y + GAP_BETWEEN_BRICKS)⌋).toNat

/-- Left edge of the brick grid, centering the columns in the arena. -/
def left_edge_of_bricks : ℚ :=
  (LEFT_WALL + RIGHT_WALL) / 2
    - ((n_columns : ℚ) / 2 * BRICK_SIZE.x)
    - ((n_columns - 1 : ℕ) : ℚ) / 2 * GAP_BETWEEN_BRICKS

/-- Center of the brick spawned at the given grid row and column. -/
def brickPosition (row column : ℕ) : Vec2 :=
  ⟨left_edge_of_bricks + BRICK_SIZE.x / 2 + (column : ℚ) * (BRICK_SIZE.x + GAP_BETWEEN_BRICKS),
   bottom_edge_of_bricks + BRICK_SIZE.y / 2 + (row : ℚ) * (BRICK_SIZE.y + GAP_BETWEEN_BRICKS)⟩

/-- A brick entity as it appears to the collider query. -/
def brickCollider (row column : ℕ) : Collider :=
  ⟨brickPosition row column, BRICK_SIZE, true, false⟩

/-- The brick grid spawned by game_setup, rows outer and columns inner,
in spawn order. -/
def brickColliders : List Collider :=
  ((List.range n_rows).map fun row =>
    (List.range n_columns).map fun column => brickCollider row column).flatten

/-- The colliders the collision query iterates over during a tick, in
spawn order: paddle first, then the four walls with the bottom one
Deadly, then the surviving bricks. -/
def tickColliders (paddleX : ℚ) (bricks : List Collider) : List Collider :=
  paddleCollider paddleX
    :: wallCollider WallLocation.wleft false
    :: wallCollider WallLocation.wright false
    :: wallCollider WallLocation.wbottom true
    :: wallCollider WallLocation.wtop false
    :: bricks

/-! The whole application state and its step relation. -/

/-- The data of the running application that the modelled systems read
and write: the two state enums, the Score and Lives resources, the ball
and paddle transforms, the live brick entities, the countdown timer
resource, and whether the countdown overlay entities are alive. -/
structure Model where
  app : AppState
  sub : GameState
  score : ℕ
  lives : ℕ
  ballPos : Vec2
  ballVel : Vec2
  paddleX : ℚ
  bricks : List Collider
  countdown : Option Timer
  overlayAlive : Bool
deriving DecidableEq, Repr

/-- The state of the application as built by main and the plugins, before
any screen transition: AppState at its default Menu, the sub state at its
default Disabled, Score and Lives inserted as zero and INITIAL_LIVES, no
game entities, no countdown resource.  The ball and paddle fields hold
placeholder zeroes; they are only given meaning by game_setup. -/
def initialModel : Model :=
  { app := AppState.Menu, sub := GameState.Disabled, score := 0,
    lives := INITIAL_LIVES, ballPos := ⟨0, 0⟩, ballVel := ⟨0, 0⟩,
    paddleX := 0, bricks := [], countdown := none, overlayAlive := false }

/-- The system game_setup of game.rs, run on entering AppState::Game:
reset Lives and Score, spawn the paddle at the center, the ball at the
starting position with the starting velocity, the walls and the brick
grid, and queue the sub state transition to Starting. -/
def game_setup (cfg : BallConfig) (m : Model) : Model :=
  { m with lives := INITIAL_LIVES, score := 0, paddleX := 0,
           ballPos := BALL_STARTING_POSITION,
           ballVel := cfg.initialBallVelocity,
           bricks := brickColliders,
           sub := GameState.Starting }

/-- The system countdown_setup of game.rs, run on entering
GameState::Starting: insert a fresh once timer over the starting plus GO
display duration and spawn the overlay. -/
def countdown_setup (m : Model) : Model :=
  { m with countdown := some ⟨0, STARTING_GAME_DURATION_SECS + GO_DISPLAY_DURATION_SECS,
                              false, false⟩,
           overlayAlive := true }

/-- Entering AppState::Game: the transition itself moves app to Game,
game_setup runs on the Game enter transition, and its queued sub state
change to Starting then triggers countdown_setup. -/
def enterGame (cfg : BallConfig) (m : Model) : Model :=
  countdown_setup (game_setup cfg { m with app := AppState.Game })

/-- Applying the outcome of one update_countdown run to the application:
on the despawn branch the overlay entities (tagged OnStartingScreen) are
removed and nothing else changes; otherwise the timer resource is
updated, and the sub state moves to Playing when the system queued that
transition. -/
def applyCountdown (m : Model) (r : CountdownResult) : Model :=
  if r.despawnOverlay then
    { m with overlayAlive := false, countdown := some r.timer }
  else
    { m with countdown := some r.timer,
             sub := if r.setPlaying then GameState.Playing else m.sub }

/-- One FixedUpdate tick of the chained systems apply_velocity,
move_paddle and check_for_collisions (play_sounds only reads events),
which run only while AppState is Game and the sub state is Playing.
Commands issued during the tick (brick despawns, state transitions) apply
at the flush that follows; if the tick left AppState, the exit hook of
AppState::Game despawns every entity tagged OnGameScreen, which includes
the bricks and the countdown overlay. -/
def fixedTick (cfg : BallConfig) (leftPressed rightPressed : Bool) (delta : ℚ)
    (m : Model) : Model :=
  let ballPos := apply_velocity delta m.ballPos m.ballVel
  let paddleX := move_paddle m.paddleX leftPressed rightPressed delta
  let s0 : TickState := ⟨ballPos, m.ballVel, m.score, m.lives, m.app, []⟩
  let r := check_for_collisions cfg s0 (tickColliders paddleX m.bricks)
  let m1 := { m with ballPos := r.1.ballPos, ballVel := r.1.ballVel,
                     score := r.1.score, lives := r.1.lives, app := r.1.app,
                     paddleX := paddleX,
                     bricks := r.2.filter (fun c => c.isBrick) }
  if m1.app = AppState.Game then m1
  else { m1 with bricks := [], overlayAlive := false }

/-- The transitions of the application, one per scheduled system run that
writes modelled data, as registered by the plugins in the sources:
the Play button of the menu and the any key handler of the end screen
enter AppState::Game, the escape handler of the end screen returns to the
menu, update_countdown runs whenever the sub state is not Disabled, the
countdown resource exists and the overlay text is alive, and the fixed
update chain runs while AppState is Game and the sub state is Playing.
No registered system writes the sub state on leaving AppState::Game. -/
inductive Step (cfg : BallConfig) : Model → Model → Prop
  | menuPlay (m : Model) :
      m.app = AppState.Menu → Step cfg m (enterGame cfg m)
  | endScreenRestart (m : Model) :
      m.app = AppState.GameOver → Step cfg m (enterGame cfg m)
  | endScreenMenu (m : Model) :
      m.app = AppState.GameOver → Step cfg m { m with app := AppState.Menu }
  | countdownTick (m : Model) (delta : ℚ) (t : Timer) :
      0 ≤ delta → m.sub ≠ GameState.Disabled → m.countdown = some t →
      m.overlayAlive = true →
      Step cfg m (applyCountdown m (update_countdown delta t))
  | fixedUpdate (m : Model) (leftPressed rightPressed : Bool) (delta : ℚ) :
      0 ≤ delta → m.app = AppState.Game → m.sub = GameState.Playing →
      Step cfg m (fixedTick cfg leftPressed rightPressed delta m)

/-- States the application can reach from startup. -/
def Reachable (cfg : BallConfig) (m : Model) : Prop :=
  Relation.ReflTransGen (Step cfg) initialModel m

/-! Geometry lemmas: the clamped point is the point of the box nearest to
the queried point. -/

/-- The clamp of a value into a nonempty interval lies in the interval. -/
theorem glamClamp_mem (v lo hi : ℚ) (h : lo ≤ hi) :
    lo ≤ glamClamp v lo hi ∧ glamClamp v lo hi ≤ hi := by
  unfold glamClamp
  constructor
  · exact le_min (le_max_right v lo) h
  · exact min_le_right _ _

/-- The clamp of a value into an interval is at least as close to the
value as any point of the interval, measured by the squared difference. -/
theorem glamClamp_nearest (v lo hi p : ℚ) (hp1 : lo ≤ p) (hp2 : p ≤ hi) :
    (v - glamClamp v lo hi) ^ 2 ≤ (v - p) ^ 2 := by
  unfold glamClamp
  rcases le_total v lo with h1 | h1
  · rw [max_eq_right h1, min_eq_left (le_trans hp1 hp2)]
    nlinarith
  · rcases le_total v hi with h2 | h2
    · rw [max_eq_left h1, min_eq_left h2]
      nlinarith [sq_nonneg (v - p)]
    · rw [max_eq_left h1, min_eq_right h2]
      nlinarith

/-- The closest point of a well formed box lies in the box. -/
theorem closestPoint_mem (a : Aabb2d) (h : a.wellFormed) (p : Vec2) :
    a.containsPoint (a.closestPoint p) := by
  obtain ⟨hx, hy⟩ := h
  obtain ⟨hx1, hx2⟩ := glamClamp_mem p.x a.minC.x a.maxC.x hx
  obtain ⟨hy1, hy2⟩ := glamClamp_mem p.y a.minC.y a.maxC.y hy
  exact ⟨hx1, hx2, hy1, hy2⟩

/-- The closest point of a box minimizes the squared distance to the
queried point among the points of the box. -/
theorem closestPoint_minimal (a : Aabb2d) (p q : Vec2) (hq : a.containsPoint q) :
    p.distanceSquared (a.closestPoint p) ≤ p.distanceSquared q := by
  obtain ⟨h1, h2, h3, h4⟩ := hq
  unfold Vec2.distanceSquared Aabb2d.closestPoint
  exact add_le_add (glamClamp_nearest p.x a.minC.x a.maxC.x q.x h1 h2)
    (glamClamp_nearest p.y a.minC.y a.maxC.y q.y h3 h4)

/-- The boolean closest point test of the source agrees with geometric
intersection: some point of the box lies within the radius. -/
theorem intersectsAabb_iff_meets (ball : BoundingCircle) (a : Aabb2d)
    (h : a.wellFormed) :
    ball.intersectsAabb a = true ↔ circleMeetsBox ball a := by
  unfold BoundingCircle.intersectsAabb circleMeetsBox
  rw [decide_eq_true_iff]
  constructor
  · intro hd
    exact ⟨a.closestPoint ball.center, closestPoint_mem a h ball.center, hd⟩
  · rintro ⟨p, hp, hd⟩
    exact le_trans (closestPoint_minimal a ball.center p hp) hd

/-- C3: for every ball bounding circle and well formed axis aligned box,
ball_collision returns none exactly when the circle does not intersect
the box geometrically; when it returns a side, the side is classified
from the offset of the ball center from the closest point of the box by
strict dominance of the horizontal component, with Left or Right chosen
by the sign of the x offset and Top or Bottom by the sign of the y
offset; ties where the absolute offsets agree take the vertical branch. -/
theorem c3_ball_collision_classification (ball : BoundingCircle) (box : Aabb2d)
    (hwf : box.wellFormed) :
    (ball_collision ball box = none ↔ ¬ circleMeetsBox ball box)
  ∧ (∀ cs, ball_collision ball box = some cs →
      cs = sideOfOffset (collisionOffset ball box))
  ∧ (|(collisionOffset ball box).x| = |(collisionOffset ball box).y| →
      sideOfOffset (collisionOffset ball box) =
        if (collisionOffset ball box).y > 0 then Collision.Top else Collision.Bottom) := by
  refine ⟨?_, ?_, ?_⟩
  · constructor
    · intro hnone hm
      have hb := (intersectsAabb_iff_meets ball box hwf).mpr hm
      simp [ball_collision, hb] at hnone
    · intro hnm
      have hb : ball.intersectsAabb box = false := by
        rcases Bool.eq_false_or_eq_true (ball.intersectsAabb box) with h | h
        · exact absurd ((intersectsAabb_iff_meets ball box hwf).mp h) hnm
        · exact h
      simp [ball_collision, hb]
  · intro cs hcs
    by_cases hB : ball.intersectsAabb box
    · simp only [ball_collision, hB, not_true_eq_false, if_false, Option.some.injEq] at hcs
      rw [← hcs]
      rfl
    · simp [ball_collision, hB] at hcs
  · intro htie
    unfold sideOfOffset
    rw [if_neg]
    exact fun hlt => absurd htie (ne_of_gt hlt)

/-! Concrete demonstration data used by witnesses and counterexamples.
The configuration vector 200, minus 200 has the sign pattern of the
source starting velocity. -/

def cfgDemo : BallConfig := ⟨⟨200, -200⟩⟩

def witnessBall : BoundingCircle := ballBoundingCircle ⟨0, 25⟩

def brickDemo : Collider := ⟨⟨0, 0⟩, BRICK_SIZE, true, false⟩

def deadlyWallDemo : Collider := wallCollider WallLocation.wbottom true

/-- Witness for C3: the concrete ball resting on the top edge of a brick
box meets the box geometrically and is classified as a Top side hit. -/
theorem c3_witness :
    circleMeetsBox witnessBall (colliderAabb brickDemo)
  ∧ ball_collision witnessBall (colliderAabb brickDemo) = some Collision.Top := by
  have h := c3_ball_collision_classification witnessBall (colliderAabb brickDemo)
    (by unfold Aabb2d.wellFormed; with_unfolding_all decide)
  refine ⟨?_, by with_unfolding_all decide⟩
  by_contra hm
  have h0 := h.1.mpr hm
  have h1 : ball_collision witnessBall (colliderAabb brickDemo) = some Collision.Top := by
    with_unfolding_all decide
  rw [h1] at h0
  exact Option.noConfusion h0

/-- C5: the reflection applied by the collision loop negates the x
component of the velocity exactly when the side is Left with the ball
moving right or Right with the ball moving left, and the y component
exactly when the side is Top with the ball moving down or Bottom with the
ball moving up; a ball already moving away from the collider keeps its
component. -/
theorem c5_reflection_signs (collision : Collision) (v : Vec2) :
    (reflectVelocity collision v).x =
      (if (collision = Collision.Left ∧ v.x > 0) ∨ (collision = Collision.Right ∧ v.x < 0)
       then -v.x else v.x)
  ∧ (reflectVelocity collision v).y =
      (if (collision = Collision.Top ∧ v.y < 0) ∨ (collision = Collision.Bottom ∧ v.y > 0)
       then -v.y else v.y) := by
  cases collision <;> constructor <;> simp [reflectVelocity]

/-- The Rust clamp of a value into a nonempty interval lies in the
interval. -/
theorem rustClamp_mem (v lo hi : ℚ) (h : lo ≤ hi) :
    lo ≤ rustClamp v lo hi ∧ rustClamp v lo hi ≤ hi := by
  unfold rustClamp
  split_ifs with h1 h2
  · exact ⟨le_refl lo, h⟩
  · exact ⟨h, le_refl hi⟩
  · exact ⟨not_lt.mp h1, not_lt.mp h2⟩

/-- C9: after the paddle move phase the paddle x always lies between the
clamp bounds, the left bound is the arena left plus half the wall
thickness plus half the paddle width plus the padding, and the scenario
of moving left for one second at speed 500 from the center produces the
raw position minus 500, clamped to the left bound. -/
theorem c9_paddle_bounds (x : ℚ) (leftPressed rightPressed : Bool) (delta : ℚ) :
    (paddleLeftBound ≤ move_paddle x leftPressed rightPressed delta
      ∧ move_paddle x leftPressed rightPressed delta ≤ paddleRightBound)
  ∧ paddleLeftBound = LEFT_WALL + WALL_THICKNESS / 2 + PADDLE_SIZE.x / 2 + PADDLE_PADDING
  ∧ ((0 : ℚ) + paddleDirection true false * PADDLE_SPEED * 1 = -500)
  ∧ move_paddle 0 true false 1 = paddleLeftBound := by
  refine ⟨?_, rfl, by with_unfolding_all decide, by with_unfolding_all decide⟩
  have hlr : paddleLeftBound ≤ paddleRightBound := by with_unfolding_all decide
  exact rustClamp_mem _ _ _ hlr

/-! Lemmas about the collision loop. -/

theorem checkColliders_nil (cfg : BallConfig) (tb : ℕ) (s : TickState) :
    checkColliders cfg tb s [] = (s, []) := rfl

theorem checkColliders_cons (cfg : BallConfig) (tb : ℕ) (s : TickState)
    (c : Collider) (rest : List Collider) :
    checkColliders cfg tb s (c :: rest) =
      if (processCollider cfg tb s c).abort then
        ((processCollider cfg tb s c).state,
          (if (processCollider cfg tb s c).despawnCurrent then [] else [c]) ++ rest)
      else
        ((checkColliders cfg tb (processCollider cfg tb s c).state rest).1,
          (if (processCollider cfg tb s c).despawnCurrent then [] else [c]) ++
            (checkColliders cfg tb (processCollider cfg tb s c).state rest).2) := rfl

/-- Processing one collider never raises Lives, and leaves Lives alone
when it is zero: the decrement in the deadly branch is guarded by the
zero test. -/
theorem processCollider_lives (cfg : BallConfig) (tb : ℕ) (s : TickState) (c : Collider) :
    (processCollider cfg tb s c).state.lives ≤ s.lives
  ∧ (s.lives = 0 → (processCollider cfg tb s c).state.lives = 0) := by
  cases h : ball_collision (ballBoundingCircle s.ballPos) (colliderAabb c) with
  | none => simp [processCollider, h]
  | some cs =>
    simp only [processCollider, h]
    unfold deadlyStep
    split_ifs <;> simp_all

/-- Processing one collider changes Score by one exactly when it queued a
brick despawn, and a despawn is queued only for a Brick. -/
theorem processCollider_score (cfg : BallConfig) (tb : ℕ) (s : TickState) (c : Collider) :
    (processCollider cfg tb s c).state.score =
      s.score + (if (processCollider cfg tb s c).despawnCurrent then 1 else 0)
  ∧ ((processCollider cfg tb s c).despawnCurrent = true → c.isBrick = true) := by
  cases h : ball_collision (ballBoundingCircle s.ballPos) (colliderAabb c) with
  | none => simp [processCollider, h]
  | some cs =>
    simp only [processCollider, h]
    unfold deadlyStep
    split_ifs <;> simp_all

/-- Processing one collider whose brick branch cannot see a zero brick
count leaves the application state alone or moves it to GameOver; in
particular it never moves it to Win. -/
theorem processCollider_app (cfg : BallConfig) (tb : ℕ) (s : TickState) (c : Collider)
    (h : c.isBrick = true → tb ≠ 0) :
    (processCollider cfg tb s c).state.app = s.app
  ∨ (processCollider cfg tb s c).state.app = AppState.GameOver := by
  cases hb : ball_collision (ballBoundingCircle s.ballPos) (colliderAabb c) with
  | none => simp [processCollider, hb]
  | some cs =>
    simp only [processCollider, hb]
    unfold deadlyStep
    split_ifs <;> simp_all

/-- Along the whole loop Lives never rises and stays zero once zero. -/
theorem checkColliders_lives (cfg : BallConfig) (tb : ℕ) :
    ∀ (L : List Collider) (s : TickState),
      (checkColliders cfg tb s L).1.lives ≤ s.lives
    ∧ (s.lives = 0 → (checkColliders cfg tb s L).1.lives = 0)
  | [], s => by simp [checkColliders_nil]
  | c :: rest, s => by
    have hp := processCollider_lives cfg tb s c
    have ih := checkColliders_lives cfg tb rest (processCollider cfg tb s c).state
    rw [checkColliders_cons]
    by_cases habort : (processCollider cfg tb s c).abort
    · rw [if_pos habort]
      exact hp
    · rw [if_neg habort]
      refine ⟨le_trans ih.1 hp.1, fun h0 => ih.2 (hp.2 h0)⟩

/-- Along the whole loop Score never falls. -/
theorem checkColliders_score_mono (cfg : BallConfig) (tb : ℕ) :
    ∀ (L : List Collider) (s : TickState),
      s.score ≤ (checkColliders cfg tb s L).1.score
  | [], s => by simp [checkColliders_nil]
  | c :: rest, s => by
    have hp := (processCollider_score cfg tb s c).1
    have hs : s.score ≤ (processCollider cfg tb s c).state.score := by
      rw [hp]; split_ifs <;> omega
    have ih := checkColliders_score_mono cfg tb rest (processCollider cfg tb s c).state
    rw [checkColliders_cons]
    by_cases habort : (processCollider cfg tb s c).abort
    · rw [if_pos habort]
      exact hs
    · rw [if_neg habort]
      exact le_trans hs ih

/-- Along the whole loop the Score gained equals the number of bricks that
leave the collider set: Score plus the surviving brick count is
invariant. -/
theorem checkColliders_score_bricks (cfg : BallConfig) (tb : ℕ) :
    ∀ (L : List Collider) (s : TickState),
      (checkColliders cfg tb s L).1.score
        + ((checkColliders cfg tb s L).2.countP (fun c => c.isBrick)) =
      s.score + L.countP (fun c => c.isBrick)
  | [], s => by simp [checkColliders_nil]
  | c :: rest, s => by
    have hp := processCollider_score cfg tb s c
    have hsc := hp.1
    have ih := checkColliders_score_bricks cfg tb rest (processCollider cfg tb s c).state
    rw [checkColliders_cons]
    by_cases habort : (processCollider cfg tb s c).abort
    · rw [if_pos habort]
      rcases hd : (processCollider cfg tb s c).despawnCurrent with _ | _
      · rw [hd] at hsc
        simp [List.countP_cons, List.countP_append] at hsc ⊢
        omega
      · have hbrick := hp.2 hd
        rw [hd] at hsc
        simp [List.countP_cons, List.countP_append, hbrick] at hsc ⊢
        omega
    · rw [if_neg habort]
      rcases hd : (processCollider cfg tb s c).despawnCurrent with _ | _
      · rw [hd] at hsc
        simp [List.countP_cons, List.countP_append] at hsc ⊢
        omega
      · have hbrick := hp.2 hd
        rw [hd] at hsc
        simp [List.countP_cons, List.countP_append, hbrick] at hsc ⊢
        omega

/-- Along the whole loop the application state stays put or becomes
GameOver, provided the brick count constant is nonzero whenever some
brick is in the remaining list. -/
theorem checkColliders_app (cfg : BallConfig) (tb : ℕ) :
    ∀ (L : List Collider) (s : TickState),
      (∀ c ∈ L, c.isBrick = true → tb ≠ 0) →
      (checkColliders cfg tb s L).1.app = s.app
    ∨ (checkColliders cfg tb s L).1.app = AppState.GameOver
  | [], s, _ => by simp [checkColliders_nil]
  | c :: rest, s, hL => by
    have hp := processCollider_app cfg tb s c (hL c (List.mem_cons_self c rest))
    have ih := checkColliders_app cfg tb rest (processCollider cfg tb s c).state
      (fun d hd => hL d (List.mem_cons_of_mem c hd))
    rw [checkColliders_cons]
    by_cases habort : (processCollider cfg tb s c).abort
    · rw [if_pos habort]
      exact hp
    · rw [if_neg habort]
      rcases ih with ih | ih
      · rw [ih]; exact hp
      · right; exact ih

/-- The system check_for_collisions counts bricks over the full query,
so the count is nonzero whenever the list has a brick, and the
application state can only stay or become GameOver: Win is unreachable
from a non Win state. -/
theorem check_for_collisions_no_win (cfg : BallConfig) (s : TickState)
    (L : List Collider) :
    (check_for_collisions cfg s L).1.app = s.app
  ∨ (check_for_collisions cfg s L).1.app = AppState.GameOver := by
  unfold check_for_collisions
  refine checkColliders_app cfg _ L s ?_
  intro c hc hb h0
  have : 0 < L.countP (fun d => d.isBrick) :=
    List.countP_pos_iff.mpr ⟨c, hc, by simp [hb]⟩
  omega

/-! Claim C1: destroying the last brick. -/

def lastBrickState : TickState := ⟨⟨0, 25⟩, ⟨200, -200⟩, 0, 3, AppState.Game, []⟩

/-- C1: a tick whose collider set is a single brick hit by the ball.
The brick is despawned (no survivor) and Score increments, but the
application state stays Game instead of moving to Win, and the loop body
does not return early: the remaining brick count the source reads comes
from the live query, where the deferred despawn has not applied, so the
count still includes the brick being destroyed and is never zero inside
the brick branch. -/
theorem c1_last_brick_no_win :
    (check_for_collisions cfgDemo lastBrickState [brickDemo]).1.score = 1
  ∧ (check_for_collisions cfgDemo lastBrickState [brickDemo]).2 = []
  ∧ (check_for_collisions cfgDemo lastBrickState [brickDemo]).1.app = AppState.Game
  ∧ (check_for_collisions cfgDemo lastBrickState [brickDemo]).1.app ≠ AppState.Win
  ∧ (processCollider cfgDemo 1 lastBrickState brickDemo).abort = false := by
  with_unfolding_all decide

/-! Claim C2: Lives floor and the deadly collision at zero lives. -/

/-- C2: during collision processing Lives never rises and a zero Lives
value is never decremented (the decrement is guarded, so Lives cannot go
below zero); and a deadly non brick collision at zero Lives yields
exactly: the Collision and GameOver events appended, the application
state moved to GameOver, Lives, Score, ball position and ball velocity
untouched, and the rest of the collider list left unprocessed (the loop
returns early and every collider survives). -/
theorem c2_lives_never_negative :
    (∀ (cfg : BallConfig) (s : TickState) (L : List Collider),
       (check_for_collisions cfg s L).1.lives ≤ s.lives
     ∧ (s.lives = 0 → (check_for_collisions cfg s L).1.lives = 0))
  ∧ (∀ (cfg : BallConfig) (tb : ℕ) (s : TickState) (c : Collider)
       (rest : List Collider) (cs : Collision),
       s.lives = 0 → c.isDeadly = true → c.isBrick = false →
       ball_collision (ballBoundingCircle s.ballPos) (colliderAabb c) = some cs →
       checkColliders cfg tb s (c :: rest) =
         (⟨s.ballPos, s.ballVel, s.score, s.lives, AppState.GameOver,
           s.events ++ [GameEvent.Collision, GameEvent.GameOver]⟩, c :: rest)) := by
  constructor
  · intro cfg s L
    exact checkColliders_lives cfg _ L s
  · intro cfg tb s c rest cs h0 hd hb hc
    have hpc : processCollider cfg tb s c =
        ⟨⟨s.ballPos, s.ballVel, s.score, s.lives, AppState.GameOver,
          s.events ++ [GameEvent.Collision, GameEvent.GameOver]⟩, false, true⟩ := by
      simp only [processCollider, hc]
      rw [if_neg (by simp [hb])]
      simp [deadlyStep, hd, h0]
    rw [checkColliders_cons, hpc]
    simp

/-- Witness for C2 at the concrete deadly wall scenario with zero
lives. -/
def deadlyZeroState : TickState := ⟨⟨0, -280⟩, ⟨200, -200⟩, 0, 0, AppState.Game, []⟩

theorem c2_witness :
    (check_for_collisions cfgDemo deadlyZeroState [deadlyWallDemo]).1.lives = 0
  ∧ checkColliders cfgDemo 7 deadlyZeroState [deadlyWallDemo] =
      (⟨⟨0, -280⟩, ⟨200, -200⟩, 0, 0, AppState.GameOver,
        [GameEvent.Collision, GameEvent.GameOver]⟩, [deadlyWallDemo]) := by
  constructor
  · exact (c2_lives_never_negative.1 cfgDemo deadlyZeroState [deadlyWallDemo]).2 rfl
  · have h := c2_lives_never_negative.2 cfgDemo 7 deadlyZeroState deadlyWallDemo []
      Collision.Top rfl rfl rfl (by with_unfolding_all decide)
    rw [h]
    with_unfolding_all decide

/-! Claim C4: the deadly collision with at least one life. -/

def resetDemoState : TickState := ⟨⟨0, -280⟩, ⟨200, -200⟩, 0, 1, AppState.Game, []⟩

/-- Counterexample to C4 as stated: a configuration whose starting
velocity has the sign pattern of the source constant, and a ball one
radius above the deadly bottom wall moving down with one life left.  At
the end of the collision processing the ball position is the starting
position, but the ball velocity is NOT the starting velocity: the reset
velocity falls through the reflection step of the same loop iteration,
and a Top side hit with a downward start velocity negates its y
component. -/
theorem c4_counterexample :
    IsInitialBallVelocity cfgDemo.initialBallVelocity
  ∧ resetDemoState.lives = 1
  ∧ ball_collision (ballBoundingCircle resetDemoState.ballPos)
      (colliderAabb deadlyWallDemo) = some Collision.Top
  ∧ (check_for_collisions cfgDemo resetDemoState [deadlyWallDemo]).1.ballPos =
      BALL_STARTING_POSITION
  ∧ (check_for_collisions cfgDemo resetDemoState [deadlyWallDemo]).1.ballVel ≠
      cfgDemo.initialBallVelocity := by
  refine ⟨⟨?_, ?_⟩, ?_, ?_, ?_, ?_⟩ <;> with_unfolding_all decide

/-- C4 as amended: a deadly non brick collision with at least one life
decrements Lives by one, appends the Collision and LostLife events,
leaves the application state (Game) and the Score untouched, resets the
ball position to the starting position, and sets the ball velocity to
the starting velocity passed through the reflection rule for the
collision side; the loop continues (no early return). -/
theorem c4_deadly_reset_then_reflect (cfg : BallConfig) (tb : ℕ) (s : TickState)
    (c : Collider) (cs : Collision) (hb : c.isBrick = false) (hd : c.isDeadly = true)
    (hl : ¬ s.lives = 0)
    (hc : ball_collision (ballBoundingCircle s.ballPos) (colliderAabb c) = some cs) :
    processCollider cfg tb s c =
      ⟨⟨BALL_STARTING_POSITION, reflectVelocity cs cfg.initialBallVelocity,
        s.score, s.lives - 1, s.app,
        s.events ++ [GameEvent.Collision, GameEvent.LostLife]⟩, false, false⟩ := by
  simp only [processCollider, hc]
  rw [if_neg (by simp [hb])]
  simp [deadlyStep, hd, hl]

/-- Witness for the amended C4 at the concrete deadly wall scenario with
one life: the final velocity is the y negation of the configured
starting velocity. -/
theorem c4_witness :
    processCollider cfgDemo 0 resetDemoState deadlyWallDemo =
      ⟨⟨BALL_STARTING_POSITION, ⟨200, 200⟩, 0, 0, AppState.Game,
        [GameEvent.Collision, GameEvent.LostLife]⟩, false, false⟩ := by
  have h := c4_deadly_reset_then_reflect cfgDemo 0 resetDemoState deadlyWallDemo
    Collision.Top rfl rfl (by with_unfolding_all decide) (by with_unfolding_all decide)
  rw [h]
  with_unfolding_all decide

/-! Claim C10: the paddle as an ordinary collider. -/

/-- C10: when the ball collides with the paddle (a collider with neither
the Brick nor the Deadly marker), the loop body appends exactly one
Collision event, leaves Score, Lives, the application state and the ball
position untouched, reflects the ball velocity by the same side and sign
rules as any other collider, queues no despawn, and does not return
early. -/
theorem c10_paddle_ordinary_collider (cfg : BallConfig) (tb : ℕ) (s : TickState)
    (x : ℚ) (cs : Collision)
    (hc : ball_collision (ballBoundingCircle s.ballPos)
      (colliderAabb (paddleCollider x)) = some cs) :
    processCollider cfg tb s (paddleCollider x) =
      ⟨⟨s.ballPos, reflectVelocity cs s.ballVel, s.score, s.lives, s.app,
        s.events ++ [GameEvent.Collision]⟩, false, false⟩ := by
  simp only [processCollider, hc]
  rw [if_neg (by simp [paddleCollider])]
  simp [deadlyStep, paddleCollider]

/-- Witness for C10: a ball resting on the paddle top, moving down. -/
def paddleHitState : TickState := ⟨⟨0, -220⟩, ⟨200, -200⟩, 5, 2, AppState.Game, []⟩

theorem c10_witness :
    processCollider cfgDemo 56 paddleHitState (paddleCollider 0) =
      ⟨⟨⟨0, -220⟩, ⟨200, 200⟩, 5, 2, AppState.Game, [GameEvent.Collision]⟩,
        false, false⟩ := by
  have h := c10_paddle_ordinary_collider cfgDemo 56 paddleHitState 0 Collision.Top
    (by with_unfolding_all decide)
  rw [h]
  with_unfolding_all decide

/-! Lemmas about the application level transitions. -/

/-- A fixed update tick never writes the sub state. -/
theorem fixedTick_sub (cfg : BallConfig) (l r : Bool) (delta : ℚ) (m : Model) :
    (fixedTick cfg l r delta m).sub = m.sub := by
  unfold fixedTick
  dsimp only
  split <;> rfl

/-- A fixed update tick never lowers the score. -/
theorem fixedTick_score_mono (cfg : BallConfig) (l r : Bool) (delta : ℚ) (m : Model) :
    m.score ≤ (fixedTick cfg l r delta m).score := by
  have hmono := checkColliders_score_mono cfg
    (List.countP (fun c => c.isBrick)
      (tickColliders (move_paddle m.paddleX l r delta) m.bricks))
    (tickColliders (move_paddle m.paddleX l r delta) m.bricks)
    ⟨apply_velocity delta m.ballPos m.ballVel, m.ballVel, m.score, m.lives, m.app, []⟩
  unfold fixedTick check_for_collisions
  dsimp only
  split <;> exact hmono

/-- Applying a countdown outcome writes neither the score, nor the
application state, nor the lives. -/
theorem applyCountdown_fields (m : Model) (r : CountdownResult) :
    (applyCountdown m r).score = m.score ∧ (applyCountdown m r).app = m.app
  ∧ (applyCountdown m r).lives = m.lives := by
  unfold applyCountdown
  split_ifs <;> simp

/-! Claim C6: the sub state is not reset when AppState leaves Game. -/

def timer0 : Timer :=
  ⟨0, STARTING_GAME_DURATION_SECS + GO_DISPLAY_DURATION_SECS, false, false⟩

def m1demo : Model := enterGame cfgDemo initialModel

def m2demo : Model := applyCountdown m1demo (update_countdown 3 timer0)

def m3demo : Model := fixedTick cfgDemo false false (5/4) m2demo

def m4demo : Model := fixedTick cfgDemo false false (5/4) m3demo

def m5demo : Model := fixedTick cfgDemo false false (5/4) m4demo

def m6demo : Model := fixedTick cfgDemo false false (5/4) m5demo

/-- A run of the game: enter Game from the menu, let the countdown reach
the starting duration, and lose all lives by dropping the ball onto the
deadly bottom wall on four consecutive ticks, ending in GameOver. -/
theorem m6demo_reachable : Reachable cfgDemo m6demo := by
  have h1 : Step cfgDemo initialModel m1demo := Step.menuPlay initialModel rfl
  have h2 : Step cfgDemo m1demo m2demo :=
    Step.countdownTick m1demo 3 timer0 (by norm_num)
      (by with_unfolding_all decide) (by with_unfolding_all decide)
      (by with_unfolding_all decide)
  have h3 : Step cfgDemo m2demo m3demo :=
    Step.fixedUpdate m2demo false false (5/4) (by norm_num)
      (by with_unfolding_all decide) (by with_unfolding_all decide)
  have h4 : Step cfgDemo m3demo m4demo :=
    Step.fixedUpdate m3demo false false (5/4) (by norm_num)
      (by with_unfolding_all decide) (by with_unfolding_all decide)
  have h5 : Step cfgDemo m4demo m5demo :=
    Step.fixedUpdate m4demo false false (5/4) (by norm_num)
      (by with_unfolding_all decide) (by with_unfolding_all decide)
  have h6 : Step cfgDemo m5demo m6demo :=
    Step.fixedUpdate m5demo false false (5/4) (by norm_num)
      (by with_unfolding_all decide) (by with_unfolding_all decide)
  exact Relation.ReflTransGen.tail
    (Relation.ReflTransGen.tail
      (Relation.ReflTransGen.tail
        (Relation.ReflTransGen.tail
          (Relation.ReflTransGen.tail
            (Relation.ReflTransGen.tail Relation.ReflTransGen.refl h1) h2) h3) h4)
      h5) h6

/-- Counterexample to C6 as stated: for a configuration with the sign
pattern of the source starting velocity, the application reaches a state
whose AppState is GameOver (not Game) while the sub state is still
Playing, because no registered system resets the sub state to Disabled on
leaving Game. -/
theorem c6_counterexample :
    ¬ (∀ cfg : BallConfig, IsInitialBallVelocity cfg.initialBallVelocity →
        ∀ m : Model, Reachable cfg m →
          m.app ≠ AppState.Game → m.sub = GameState.Disabled) := by
  intro h
  have hIs : IsInitialBallVelocity cfgDemo.initialBallVelocity := by
    constructor <;> with_unfolding_all decide
  have hsub := h cfgDemo hIs m6demo m6demo_reachable (by with_unfolding_all decide)
  rw [show m6demo.sub = GameState.Playing from by with_unfolding_all decide] at hsub
  exact GameState.noConfusion hsub

/-- C6 as amended: the sub state Playing is entered only by the countdown
system once the countdown elapsed time has reached the starting phase
duration.  Concretely, any transition whose source sub state is not
Playing and whose target sub state is Playing carries the countdown
resource through it: the source holds some timer t, the target holds
exactly the timer produced by ticking t with the frame delta of that very
transition, and that stored timer's elapsed time has reached
STARTING_GAME_DURATION_SECS.  And a transition that leaves AppState Game
preserves the sub state instead of resetting it to Disabled. -/
theorem c6_playing_only_after_countdown (cfg : BallConfig) (m m' : Model)
    (h : Step cfg m m') :
    (m.sub ≠ GameState.Playing → m'.sub = GameState.Playing →
      ∃ (t t' : Timer), m.countdown = some t ∧ m'.countdown = some t' ∧
        STARTING_GAME_DURATION_SECS ≤ t'.elapsedSecs ∧
        ∃ delta : ℚ, 0 ≤ delta ∧ t' = t.tickOnce delta)
  ∧ (m.app = AppState.Game → m'.app ≠ AppState.Game → m'.sub = m.sub) := by
  cases h with
  | menuPlay hm =>
    constructor
    · intro _ h2
      exfalso
      simp [enterGame, countdown_setup, game_setup] at h2
    · intro hG _
      rw [hm] at hG
      exact AppState.noConfusion hG
  | endScreenRestart hm =>
    constructor
    · intro _ h2
      exfalso
      simp [enterGame, countdown_setup, game_setup] at h2
    · intro hG _
      rw [hm] at hG
      exact AppState.noConfusion hG
  | endScreenMenu hm =>
    constructor
    · intro h1 h2
      simp at h2
      exact absurd h2 h1
    · intro _ _
      rfl
  | countdownTick delta t hdelta hsub hcd hov =>
    constructor
    · intro h1 h2
      unfold applyCountdown at h2
      by_cases hds : (update_countdown delta t).despawnOverlay
      · rw [if_pos hds] at h2
        simp at h2
        exact absurd h2 h1
      · rw [if_neg hds] at h2
        simp at h2
        by_cases hsp : (update_countdown delta t).setPlaying
        · have hjf : ¬ t.justFinishedFlag = true := by
            intro hjf
            apply hds
            unfold update_countdown
            rw [if_pos hjf]
          have htimer : (update_countdown delta t).timer = t.tickOnce delta := by
            unfold update_countdown
            rw [if_neg hjf]
          have helapsed :
              STARTING_GAME_DURATION_SECS ≤ (t.tickOnce delta).elapsedSecs := by
            unfold update_countdown at hsp
            rw [if_neg hjf] at hsp
            simpa using hsp
          refine ⟨t, t.tickOnce delta, hcd, ?_, helapsed, delta, hdelta, rfl⟩
          unfold applyCountdown
          rw [if_neg hds]
          simp [htimer]
        · exact absurd (h2 (by simpa using hsp)) h1
    · intro hG hG'
      exfalso
      exact hG' (((applyCountdown_fields m (update_countdown delta t)).2.1).trans hG)
  | fixedUpdate l r delta hdelta hG hsub =>
    constructor
    · intro h1 _
      exact absurd hsub h1
    · intro _ _
      exact fixedTick_sub cfg l r delta m

/-- Witness for the amended C6: the concrete countdown step that moves
the sub state from Starting to Playing certifies the existential. -/
theorem c6_witness :
    m1demo.sub ≠ GameState.Playing
  ∧ m2demo.sub = GameState.Playing
  ∧ (∃ (t t' : Timer), m1demo.countdown = some t ∧ m2demo.countdown = some t' ∧
      STARTING_GAME_DURATION_SECS ≤ t'.elapsedSecs ∧
      ∃ delta : ℚ, 0 ≤ delta ∧ t' = t.tickOnce delta) := by
  refine ⟨by with_unfolding_all decide, by with_unfolding_all decide, ?_⟩
  have h := (c6_playing_only_after_countdown cfgDemo m1demo m2demo
    (Step.countdownTick m1demo 3 timer0 (by norm_num)
      (by with_unfolding_all decide) (by with_unfolding_all decide)
      (by with_unfolding_all decide))).1
  exact h (by with_unfolding_all decide) (by with_unfolding_all decide)

/-! Claim C7: score monotonicity and the reset at Game entry. -/

/-- C7: a transition entering AppState Game resets Score to zero and
Lives to the initial constant; every other transition never lowers the
Score; and within one collision pass the Score gain is exactly the
number of bricks destroyed (Score plus surviving brick count is
invariant). -/
theorem c7_score_reset_exactly_at_entry (cfg : BallConfig) (m m' : Model)
    (h : Step cfg m m') :
    ((m.app ≠ AppState.Game ∧ m'.app = AppState.Game) →
       m'.score = 0 ∧ m'.lives = INITIAL_LIVES)
  ∧ (¬ (m.app ≠ AppState.Game ∧ m'.app = AppState.Game) → m.score ≤ m'.score)
  ∧ (∀ (s : TickState) (L : List Collider),
       (check_for_collisions cfg s L).1.score
         + ((check_for_collisions cfg s L).2.countP (fun c => c.isBrick)) =
       s.score + L.countP (fun c => c.isBrick)) := by
  refine ⟨?_, ?_, fun s L => checkColliders_score_bricks cfg _ L s⟩
  · rintro ⟨hne, hG⟩
    cases h with
    | menuPlay hm => exact ⟨rfl, rfl⟩
    | endScreenRestart hm => exact ⟨rfl, rfl⟩
    | endScreenMenu hm =>
      exfalso
      simp at hG
    | countdownTick delta t hdelta hsub hcd hov =>
      exfalso
      exact hne (((applyCountdown_fields m (update_countdown delta t)).2.1).symm.trans hG)
    | fixedUpdate l r delta hdelta hG0 hsub => exact absurd hG0 hne
  · intro hnot
    cases h with
    | menuPlay hm =>
      exfalso
      exact hnot ⟨by rw [hm]; exact fun hx => AppState.noConfusion hx, rfl⟩
    | endScreenRestart hm =>
      exfalso
      exact hnot ⟨by rw [hm]; exact fun hx => AppState.noConfusion hx, rfl⟩
    | endScreenMenu hm => exact le_refl _
    | countdownTick delta t hdelta hsub hcd hov =>
      exact le_of_eq ((applyCountdown_fields m (update_countdown delta t)).1).symm
    | fixedUpdate l r delta hdelta hG0 hsub =>
      exact fixedTick_score_mono cfg l r delta m

/-- Witness for C7: entering Game from the menu resets Score and Lives. -/
theorem c7_witness :
    (enterGame cfgDemo initialModel).score = 0
  ∧ (enterGame cfgDemo initialModel).lives = INITIAL_LIVES := by
  exact (c7_score_reset_exactly_at_entry cfgDemo initialModel
    (enterGame cfgDemo initialModel) (Step.menuPlay initialModel rfl)).1
    ⟨by with_unfolding_all decide, rfl⟩

/-! Claim C8: the countdown behavior. -/

/-- C8: for a countdown timer over the starting plus GO display duration
that has not yet finished: the update queues the Playing transition
exactly when the ticked elapsed time has reached the starting duration
(and applying it moves the sub state to Playing); the text written is the
ceiling of remaining seconds minus the GO display duration as an integer,
with GO shown exactly when that value is zero; and once the total elapsed
time reaches the full duration the following update despawns the overlay
entities. -/
theorem c8_countdown_behavior (t : Timer)
    (hdur : t.duration = STARTING_GAME_DURATION_SECS + GO_DISPLAY_DURATION_SECS)
    (hfin : t.finished = false) (hjf : t.justFinishedFlag = false)
    (delta delta' : ℚ) :
    ((update_countdown delta t).setPlaying = true ↔
       STARTING_GAME_DURATION_SECS ≤ (t.tickOnce delta).elapsedSecs)
  ∧ ((update_countdown delta t).text =
       some (if (⌈(t.tickOnce delta).remainingSecs - GO_DISPLAY_DURATION_SECS⌉ : ℤ) = 0
             then CountdownText.go
             else CountdownText.number
               ⌈(t.tickOnce delta).remainingSecs - GO_DISPLAY_DURATION_SECS⌉))
  ∧ (∀ mm : Model, (update_countdown delta t).setPlaying = true →
       (applyCountdown mm (update_countdown delta t)).sub = GameState.Playing)
  ∧ (STARTING_GAME_DURATION_SECS + GO_DISPLAY_DURATION_SECS ≤ t.elapsed + delta →
       ∀ mm : Model,
         (update_countdown delta' (update_countdown delta t).timer).despawnOverlay = true
       ∧ (applyCountdown mm
            (update_countdown delta' (update_countdown delta t).timer)).overlayAlive
          = false) := by
  have hnotjf : ¬ t.justFinishedFlag = true := by simp [hjf]
  refine ⟨?_, ?_, ?_, ?_⟩
  · unfold update_countdown
    rw [if_neg hnotjf]
    simp [Timer.elapsedSecs]
  · unfold update_countdown
    rw [if_neg hnotjf]
  · intro mm hsp
    unfold applyCountdown
    rw [if_neg ?hds]
    · simp only [hsp, if_pos]
    case hds =>
      unfold update_countdown
      rw [if_neg hnotjf]
      simp
  · intro hreach mm
    have htick : (t.tickOnce delta).justFinishedFlag = true := by
      unfold Timer.tickOnce
      rw [if_neg (by simp [hfin])]
      rw [if_pos (by rw [hdur]; exact hreach)]
    have htimer : (update_countdown delta t).timer = t.tickOnce delta := by
      unfold update_countdown
      rw [if_neg hnotjf]
    have hup : update_countdown delta' (t.tickOnce delta) =
        ⟨t.tickOnce delta, true, false, none⟩ := by
      unfold update_countdown
      rw [if_pos htick]
    rw [htimer, hup]
    constructor
    · rfl
    · unfold applyCountdown
      rw [if_pos rfl]

/-- Witness for C8 at the concrete game timer: a four second tick crosses
the starting duration and queues Playing, and the following update
despawns the overlay. -/
theorem c8_witness :
    (update_countdown 4 timer0).setPlaying = true
  ∧ (update_countdown 1 (update_countdown 4 timer0).timer).despawnOverlay = true
  ∧ (applyCountdown initialModel
      (update_countdown 1 (update_countdown 4 timer0).timer)).overlayAlive = false := by
  have h := c8_countdown_behavior timer0 rfl rfl rfl 4 1
  refine ⟨h.1.mpr (by with_unfolding_all decide), ?_, ?_⟩
  · exact ((h.2.2.2 (by with_unfolding_all decide)) initialModel).1
  · exact ((h.2.2.2 (by with_unfolding_all decide)) initialModel).2

end Breakout
